import Mathlib

/-!
# terraform-provider-netbox: prefix lookup, VLAN-group and webhook reconcilers

A shallow embedding of

* `netbox/data_source_netbox_prefix.go` (`dataSourceNetboxPrefixRead`),
* `netbox/resource_netbox_vlan_group.go` (Create / Read / Update / Delete),
* `netbox/resource_netbox_webhook.go` (Create / Read / Update / Delete),

together with the two `strconv` functions they use for the identifier.

Conventions of the embedding:

* Go `int` / `int64` values are `Int`; the 64-bit range is an explicit
  hypothesis wherever it matters (`ParseInt` clamps outside of it).
* A Go pointer field (`*string`, `*bool`, `*int64`, `*NestedVRF`) is an `Option`.
* `*schema.ResourceData` is a record: the identifier (`d.Id()` / `d.SetId`) and one
  field per attribute of the resource schema (`d.Get` / `d.Set`).  `d.Get` of an
  attribute that is not set yields the zero value of its type, and `d.GetOk`
  reports `ok` exactly when the value is not the zero value.
* The NetBox client `api` is a record of transition functions over a state `σ`
  of the remote side; every function threads that state.
* Every remote call is recorded in a call log, so that "no request was
  submitted" and "the Read asked for id n" are statements about the run.
* A Go run-time panic (failed type assertion, nil dereference, index out of
  range) is the result `Ret.panicked`.
-/

namespace Netbox

/-! ## strconv -/

namespace strconv

/-- The error kinds of `strconv.NumError`. -/
inductive NumError where
  | ErrSyntax
  | ErrRange
  deriving DecidableEq, Repr

/-- Largest `uint64`. -/
def maxUint64 : Nat := 2 ^ 64 - 1

/-- The digit `'0' + u` written by `formatBits`. -/
def digitChar (u : Nat) : Char := Char.ofNat (48 + u)

/-- The decimal loop of `formatBits`: `for u >= 10 { q := u / 10; a[i] = '0' + u - q*10; u = q }`
followed by `a[i] = '0' + u`.  The digits are written right to left into `acc`;
the first argument bounds the number of iterations. -/
def formatBitsLoop : Nat → Nat → List Char → List Char
  | 0, u, acc => digitChar (u % 10) :: acc
  | fuel + 1, u, acc =>
    if u ≥ 10 then formatBitsLoop fuel (u / 10) (digitChar (u % 10) :: acc)
    else digitChar u :: acc

/-- Decimal digits of an unsigned value (`formatBits` with base 10). -/
def formatBits (u : Nat) : List Char := formatBitsLoop u u []

/-- The function `strconv.FormatInt(i, 10)`. -/
def FormatInt (i : Int) : String :=
  if i < 0 then String.mk ('-' :: formatBits i.natAbs) else String.mk (formatBits i.toNat)

/-- One iteration of the digit loop of `strconv.ParseUint(s, 10, 64)`:
a byte that is not a decimal digit is a syntax error, a value that leaves the
`uint64` range is a range error. -/
def parseUintStep (n : Nat) (c : Char) : Except NumError Nat :=
  if 48 ≤ c.toNat ∧ c.toNat ≤ 57 then
    if n ≥ maxUint64 / 10 + 1 then .error .ErrRange
    else
      let n1 := n * 10 + (c.toNat - 48)
      if n1 > maxUint64 then .error .ErrRange else .ok n1
  else .error .ErrSyntax

/-- The digit loop of `strconv.ParseUint`. -/
def parseUintLoop : List Char → Nat → Except NumError Nat
  | [], n => .ok n
  | c :: cs, n =>
    match parseUintStep n c with
    | .ok n1 => parseUintLoop cs n1
    | .error e => .error e

/-- The function `strconv.ParseUint(s, 10, 64)` on the bytes of `s`:
the value and the error.  On a syntax error the value is 0, on a range error
it is the largest `uint64`. -/
def ParseUint (s : List Char) : Nat × Option NumError :=
  if s = [] then (0, some .ErrSyntax)
  else
    match parseUintLoop s 0 with
    | .ok n => (n, none)
    | .error .ErrSyntax => (0, some .ErrSyntax)
    | .error .ErrRange => (maxUint64, some .ErrRange)

/-- The function `strconv.ParseInt(s, 10, 64)`: the value and the error. -/
def ParseInt (s : String) : Int × Option NumError :=
  if s.data = [] then (0, some .ErrSyntax)
  else
    let neg := s.data.head? = some '-'
    let rest := if s.data.head? = some '+' ∨ s.data.head? = some '-' then s.data.tail else s.data
    match ParseUint rest with
    | (_, some .ErrSyntax) => (0, some .ErrSyntax)
    | (un, _) =>
      if ¬ neg ∧ un ≥ 2 ^ 63 then (2 ^ 63 - 1, some .ErrRange)
      else if neg ∧ un > 2 ^ 63 then (-(2 ^ 63), some .ErrRange)
      else (if neg then -(un : Int) else (un : Int), none)

end strconv

/-! ## Errors, results and the call log -/

/-- A Go `error` value, by its dynamic type.  `IpamVlanGroupsReadDefault` and
`ExtrasWebhooksReadDefault` are the status-coded responses of the two
read-by-id endpoints (`Code()` is the HTTP status); `errorString` is what
`errors.New` builds; `other` is a value of any other dynamic type, such as the
`*url.Error` of a failed connection. -/
inductive GoError where
  | errorString (s : String)
  | IpamVlanGroupsReadDefault (code : Int) (payload : String)
  | ExtrasWebhooksReadDefault (code : Int) (payload : String)
  | other (typeName : String) (msg : String)
  deriving DecidableEq, Repr

/-- How a call of a `func(d *schema.ResourceData, m interface{}) error` ends:
it returns `nil`, it returns an error, or it panics. -/
inductive Ret where
  | nil
  | err (e : GoError)
  | panicked (msg : String)
  deriving DecidableEq, Repr

/-- `models.NestedVRF`, the part that is read. -/
structure NestedVRF where
  ID : Int
  deriving DecidableEq, Repr

/-- `models.NestedVLAN`, the part a list filter looks at. -/
structure NestedVLAN where
  Vid : Int
  deriving DecidableEq, Repr

/-- `models.Prefix` as returned by the list endpoint. -/
structure PrefixModel where
  ID : Int
  Cidr : Option String := none
  Vlan : Option NestedVLAN := none
  Vrf : Option NestedVRF := none
  deriving DecidableEq, Repr

/-- Payload of `IpamPrefixesListOK`: `Count *int64` and `Results []*models.Prefix`. -/
structure PrefixList where
  Count : Option Int
  Results : List PrefixModel
  deriving DecidableEq, Repr

/-- `ipam.IpamPrefixesListParams`, the fields the lookup fills in
(`Prefix *string`, `VlanVid *float64`, `Limit *int64`). -/
structure IpamPrefixesListParams where
  Cidr : Option String := none
  VlanVid : Option Int := none
  Limit : Option Int := none
  deriving DecidableEq, Repr

/-- `models.NestedTag`: a tag reference, name and numeric id. -/
structure NestedTag where
  Name : String
  ID : Int
  deriving DecidableEq, Repr

/-- `models.VLANGroup`, the fields the reconciler writes or reads. -/
structure VLANGroup where
  ID : Int := 0
  Name : Option String := none
  Slug : Option String := none
  Description : String := ""
  MinVid : Int := 0
  MaxVid : Int := 0
  ScopeType : String := ""
  ScopeID : Option Int := none
  Tags : List NestedTag := []
  deriving DecidableEq, Repr

/-- `models.Webhook`, the fields the reconciler writes or reads. -/
structure Webhook where
  ID : Int := 0
  AdditionalHeaders : String := ""
  BodyTemplate : String := ""
  CaFilePath : Option String := none
  Conditions : Option String := none
  ContentTypes : List String := []
  Enabled : Bool := false
  HTTPContentType : String := ""
  HTTPMethod : String := ""
  Name : Option String := none
  PayloadURL : Option String := none
  Secret : String := ""
  SslVerification : Bool := false
  TypeCreate : Option Bool := none
  TypeDelete : Option Bool := none
  TypeUpdate : Option Bool := none
  deriving DecidableEq, Repr

/-- One request sent to the remote side. -/
inductive Call where
  | IpamPrefixesList (params : IpamPrefixesListParams)
  | TagLookup (names : List String)
  | IpamVlanGroupsCreate (data : VLANGroup)
  | IpamVlanGroupsRead (id : Int)
  | IpamVlanGroupsUpdate (id : Int) (data : VLANGroup)
  | IpamVlanGroupsDelete (id : Int)
  | ExtrasWebhooksCreate (data : Webhook)
  | ExtrasWebhooksRead (id : Int)
  | ExtrasWebhooksUpdate (id : Int) (data : Webhook)
  | ExtrasWebhooksDelete (id : Int)
  deriving DecidableEq, Repr

/-- The NetBox client (`*client.NetBoxAPI`) over a remote state `σ`: every
operation maps the state before the call and the request to the response
(`(res, err)` as an `Except`) and the state after the call.
`getNestedTagListFromResourceDataSet` is not part of these source files; it is
taken as a parameter with its two return values, the tag references and the
failure report (`none` when every name was resolved). -/
structure NetBoxAPI (σ : Type) where
  IpamPrefixesList : σ → IpamPrefixesListParams → Except GoError PrefixList × σ
  getNestedTagListFromResourceDataSet : σ → List String → (List NestedTag × Option String) × σ
  IpamVlanGroupsCreate : σ → VLANGroup → Except GoError VLANGroup × σ
  IpamVlanGroupsRead : σ → Int → Except GoError VLANGroup × σ
  IpamVlanGroupsUpdate : σ → Int → VLANGroup → Except GoError VLANGroup × σ
  IpamVlanGroupsDelete : σ → Int → Except GoError Unit × σ
  ExtrasWebhooksCreate : σ → Webhook → Except GoError Webhook × σ
  ExtrasWebhooksRead : σ → Int → Except GoError Webhook × σ
  ExtrasWebhooksUpdate : σ → Int → Webhook → Except GoError Webhook × σ
  ExtrasWebhooksDelete : σ → Int → Except GoError Unit × σ

/-- A finished call of one of the embedded functions: the local state `d`, the
remote state, the requests sent (in order) and how the call ended. -/
structure Run (σ D : Type) where
  d : D
  remote : σ
  calls : List Call
  ret : Ret

/-! ## Helpers of the repository that live outside these source files -/

/-- Modelled from the spec: `strToPtr`, a helper defined outside the three
files embedded here, returns a pointer to its argument, so a local zero value
is submitted explicitly. -/
def strToPtr (s : String) : Option String := some s

/-- Modelled from the spec: `int64ToPtr`, a helper defined outside the three
files embedded here, returns a pointer to its argument. -/
def int64ToPtr (i : Int) : Option Int := some i

/-- Modelled from the spec: `nToPtr`, a helper defined outside the three files
embedded here, returns a pointer to its argument. -/
def nToPtr (b : Bool) : Option Bool := some b

/-- Modelled from the spec: `toNList`, a helper defined outside the three files
embedded here, lists the members of a set attribute. -/
def toNList (xs : List String) : List String := xs

/-- Modelled from the spec: `getTagListFromNestedTagList`, a helper defined
outside the three files embedded here, projects the tag references (name and
numeric id) to their names. -/
def getTagListFromNestedTagList (tags : List NestedTag) : List String :=
  tags.map (fun t => t.Name)

/-! ## Prefix lookup (`data_source_netbox_prefix.go`) -/

/-- The `*schema.ResourceData` of the prefix data source: the identifier and
the attributes `id`, `cidr`, `vlan_vid`, `vrf_id` of its schema. -/
structure PrefixData where
  Id : String := ""
  id : Int := 0
  cidr : String := ""
  vlan_vid : Int := 0
  vrf_id : Int := 0
  deriving DecidableEq, Repr

/-- Lines 44-55 of `dataSourceNetboxPrefixRead`: the list parameters built from
the filter attributes, with the limit of 2. -/
def dataSourceNetboxPrefixParams (d : PrefixData) : IpamPrefixesListParams :=
  let params : IpamPrefixesListParams := {}
  let params := if d.cidr ≠ "" then { params with Cidr := strToPtr d.cidr } else params
  let params := if d.vlan_vid ≠ 0 then { params with VlanVid := some d.vlan_vid } else params
  { params with Limit := some 2 }

/-- The function `dataSourceNetboxPrefixRead`. -/
def dataSourceNetboxPrefixRead {σ : Type} (api : NetBoxAPI σ) (d : PrefixData) (s : σ) :
    Run σ PrefixData :=
  let params := dataSourceNetboxPrefixParams d
  match api.IpamPrefixesList s params with
  | (.error err, s1) => ⟨d, s1, [.IpamPrefixesList params], .err err⟩
  | (.ok res, s1) =>
    match res.Count with
    | none => ⟨d, s1, [.IpamPrefixesList params], .panicked "nil pointer dereference"⟩
    | some count =>
      if count > 1 then
        ⟨d, s1, [.IpamPrefixesList params],
          .err (.errorString "More than one result. Specify a more narrow filter")⟩
      else if count = 0 then
        ⟨d, s1, [.IpamPrefixesList params], .err (.errorString "No result")⟩
      else
        match res.Results with
        | [] => ⟨d, s1, [.IpamPrefixesList params], .panicked "index out of range [0]"⟩
        | result :: _ =>
          let d := { d with id := result.ID }
          let d := match result.Vrf with
            | some vrf => { d with vrf_id := vrf.ID }
            | none => d
          let d := { d with Id := strconv.FormatInt result.ID }
          ⟨d, s1, [.IpamPrefixesList params], .nil⟩

/-! ## VLAN group (`resource_netbox_vlan_group.go`) -/

/-- The `*schema.ResourceData` of `netbox_vlan_group`: the identifier and the
attributes of the schema.  `tags` is the set of tag names. -/
structure VlanGroupData where
  Id : String := ""
  name : String := ""
  slug : String := ""
  description : String := ""
  tags : List String := []
  min_vid : Int := 0
  max_vid : Int := 0
  scope_type : String := ""
  scope_id : Int := 0
  deriving DecidableEq, Repr

/-- Lines 68-88 of `resourceNetboxVlanGroupCreate`, which are lines 138-158 of
`resourceNetboxVlanGroupUpdate`: the payload before its tags are filled in.
`d.GetOk` reports `ok` exactly for a value that is not the zero value. -/
def resourceNetboxVlanGroupData (d : VlanGroupData) : VLANGroup :=
  let data : VLANGroup := {}
  let data := { data with Name := some d.name }
  let data := { data with Slug := some d.slug }
  let data := { data with Description := d.description }
  let data := { data with MinVid := d.min_vid }
  let data := { data with MaxVid := d.max_vid }
  let data := if d.scope_type ≠ "" then { data with ScopeType := d.scope_type } else data
  let data := if d.scope_id ≠ 0 then { data with ScopeID := int64ToPtr d.scope_id } else data
  data

/-- Lines 118-130 of `resourceNetboxVlanGroupRead`: the `d.Set` calls that
follow a successful read-by-id call.  `d.Set` of a nil `*string` stores the
zero value. -/
def resourceNetboxVlanGroupReadSet (d : VlanGroupData) (group : VLANGroup) : VlanGroupData :=
  let d := { d with name := group.Name.getD "" }
  let d := { d with slug := group.Slug.getD "" }
  let d := { d with description := group.Description }
  let d := { d with tags := getTagListFromNestedTagList group.Tags }
  let d := { d with scope_type := group.ScopeType }
  let d := { d with min_vid := group.MinVid }
  let d := { d with max_vid := group.MaxVid }
  let d := match group.ScopeID with
    | some scopeID => { d with scope_id := scopeID }
    | none => d
  d

/-- The function `resourceNetboxVlanGroupRead`. -/
def resourceNetboxVlanGroupRead {σ : Type} (api : NetBoxAPI σ) (d : VlanGroupData) (s : σ) :
    Run σ VlanGroupData :=
  let id := (strconv.ParseInt d.Id).1
  match api.IpamVlanGroupsRead s id with
  | (.error err, s1) =>
    match err with
    | .IpamVlanGroupsReadDefault errorcode _ =>
      if errorcode = 404 then
        ⟨{ d with Id := "" }, s1, [.IpamVlanGroupsRead id], .nil⟩
      else
        ⟨d, s1, [.IpamVlanGroupsRead id], .err err⟩
    | _ =>
      ⟨d, s1, [.IpamVlanGroupsRead id],
        .panicked "interface conversion: error is not *ipam.IpamVlanGroupsReadDefault"⟩
  | (.ok group, s1) =>
    ⟨resourceNetboxVlanGroupReadSet d group, s1, [.IpamVlanGroupsRead id], .nil⟩

/-- The function `resourceNetboxVlanGroupCreate`.  The second return value of
`getNestedTagListFromResourceDataSet` is discarded (`data.Tags, _ = ...`). -/
def resourceNetboxVlanGroupCreate {σ : Type} (api : NetBoxAPI σ) (d : VlanGroupData) (s : σ) :
    Run σ VlanGroupData :=
  let data := resourceNetboxVlanGroupData d
  match api.getNestedTagListFromResourceDataSet s d.tags with
  | ((tags, _), s1) =>
    let data := { data with Tags := tags }
    match api.IpamVlanGroupsCreate s1 data with
    | (.error err, s2) => ⟨d, s2, [.TagLookup d.tags, .IpamVlanGroupsCreate data], .err err⟩
    | (.ok res, s2) =>
      let d := { d with Id := strconv.FormatInt res.ID }
      let r := resourceNetboxVlanGroupRead api d s2
      { r with calls := [.TagLookup d.tags, .IpamVlanGroupsCreate data] ++ r.calls }

/-- The function `resourceNetboxVlanGroupUpdate`. -/
def resourceNetboxVlanGroupUpdate {σ : Type} (api : NetBoxAPI σ) (d : VlanGroupData) (s : σ) :
    Run σ VlanGroupData :=
  let id := (strconv.ParseInt d.Id).1
  let data := resourceNetboxVlanGroupData d
  match api.getNestedTagListFromResourceDataSet s d.tags with
  | ((tags, _), s1) =>
    let data := { data with Tags := tags }
    match api.IpamVlanGroupsUpdate s1 id data with
    | (.error err, s2) => ⟨d, s2, [.TagLookup d.tags, .IpamVlanGroupsUpdate id data], .err err⟩
    | (.ok _, s2) =>
      let r := resourceNetboxVlanGroupRead api d s2
      { r with calls := [.TagLookup d.tags, .IpamVlanGroupsUpdate id data] ++ r.calls }

/-- The function `resourceNetboxVlanGroupDelete`. -/
def resourceNetboxVlanGroupDelete {σ : Type} (api : NetBoxAPI σ) (d : VlanGroupData) (s : σ) :
    Run σ VlanGroupData :=
  let id := (strconv.ParseInt d.Id).1
  match api.IpamVlanGroupsDelete s id with
  | (.error err, s1) => ⟨d, s1, [.IpamVlanGroupsDelete id], .err err⟩
  | (.ok _, s1) => ⟨d, s1, [.IpamVlanGroupsDelete id], .nil⟩

/-! ## Webhook (`resource_netbox_webhook.go`) -/

/-- The `*schema.ResourceData` of `netbox_webhook`: the identifier and the
fifteen attributes of the schema. -/
structure WebhookData where
  Id : String := ""
  additional_headers : String := ""
  body_template : String := ""
  ca_file_path : String := ""
  conditions : String := ""
  content_types : List String := []
  enabled : Bool := false
  name : String := ""
  http_method : String := ""
  http_content_type : String := ""
  payload_url : String := ""
  secret : String := ""
  ssl_verification : Bool := false
  type_create : Bool := false
  type_delete : Bool := false
  type_update : Bool := false
  deriving DecidableEq, Repr

/-- Lines 111-127 of `resourceNetboxWebhookCreate`, which are lines 214-230 of
`resourceNetboxWebhookUpdate`: the payload. -/
def resourceNetboxWebhookData (d : WebhookData) : Webhook :=
  { AdditionalHeaders := d.additional_headers
    BodyTemplate := d.body_template
    CaFilePath := strToPtr d.ca_file_path
    Conditions := strToPtr d.conditions
    ContentTypes := toNList d.content_types
    Enabled := d.enabled
    HTTPContentType := d.http_content_type
    HTTPMethod := d.http_method
    Name := strToPtr d.name
    PayloadURL := strToPtr d.payload_url
    Secret := d.secret
    SslVerification := d.ssl_verification
    TypeCreate := nToPtr d.type_create
    TypeDelete := nToPtr d.type_delete
    TypeUpdate := nToPtr d.type_update }

/-- Lines 155-206 of `resourceNetboxWebhookRead`: the `d.Set` calls that follow
a successful read-by-id call. -/
def resourceNetboxWebhookReadSet (d : WebhookData) (webhook : Webhook) : WebhookData :=
  let d := { d with additional_headers := webhook.AdditionalHeaders }
  let d := { d with body_template := webhook.BodyTemplate }
  let d := { d with enabled := webhook.Enabled }
  let d := { d with http_content_type := webhook.HTTPContentType }
  let d := { d with http_method := webhook.HTTPMethod }
  let d := { d with secret := webhook.Secret }
  let d := { d with ssl_verification := webhook.SslVerification }
  let d := { d with content_types := webhook.ContentTypes }
  let d := match webhook.CaFilePath with
    | some v => { d with ca_file_path := v }
    | none => { d with ca_file_path := "" }
  let d := match webhook.Conditions with
    | some v => { d with conditions := v }
    | none => { d with conditions := "" }
  let d := match webhook.Name with
    | some v => { d with name := v }
    | none => { d with name := "" }
  let d := match webhook.PayloadURL with
    | some v => { d with payload_url := v }
    | none => { d with payload_url := "" }
  let d := match webhook.TypeCreate with
    | some v => { d with type_create := v }
    | none => { d with type_create := false }
  let d := match webhook.TypeUpdate with
    | some v => { d with type_update := v }
    | none => { d with type_update := false }
  let d := match webhook.TypeDelete with
    | some v => { d with type_delete := v }
    | none => { d with type_delete := false }
  d

/-- The function `resourceNetboxWebhookRead`. -/
def resourceNetboxWebhookRead {σ : Type} (api : NetBoxAPI σ) (d : WebhookData) (s : σ) :
    Run σ WebhookData :=
  let id := (strconv.ParseInt d.Id).1
  match api.ExtrasWebhooksRead s id with
  | (.error err, s1) =>
    match err with
    | .ExtrasWebhooksReadDefault errorcode _ =>
      if errorcode = 404 then
        ⟨{ d with Id := "" }, s1, [.ExtrasWebhooksRead id], .nil⟩
      else
        ⟨d, s1, [.ExtrasWebhooksRead id], .err err⟩
    | _ =>
      ⟨d, s1, [.ExtrasWebhooksRead id],
        .panicked "interface conversion: error is not *extras.ExtrasWebhooksReadDefault"⟩
  | (.ok webhook, s1) =>
    ⟨resourceNetboxWebhookReadSet d webhook, s1, [.ExtrasWebhooksRead id], .nil⟩

/-- The function `resourceNetboxWebhookCreate`. -/
def resourceNetboxWebhookCreate {σ : Type} (api : NetBoxAPI σ) (d : WebhookData) (s : σ) :
    Run σ WebhookData :=
  let data := resourceNetboxWebhookData d
  match api.ExtrasWebhooksCreate s data with
  | (.error err, s1) => ⟨d, s1, [.ExtrasWebhooksCreate data], .err err⟩
  | (.ok res, s1) =>
    let d := { d with Id := strconv.FormatInt res.ID }
    let r := resourceNetboxWebhookRead api d s1
    { r with calls := [.ExtrasWebhooksCreate data] ++ r.calls }

/-- The function `resourceNetboxWebhookUpdate`. -/
def resourceNetboxWebhookUpdate {σ : Type} (api : NetBoxAPI σ) (d : WebhookData) (s : σ) :
    Run σ WebhookData :=
  let id := (strconv.ParseInt d.Id).1
  let data := resourceNetboxWebhookData d
  match api.ExtrasWebhooksUpdate s id data with
  | (.error err, s1) => ⟨d, s1, [.ExtrasWebhooksUpdate id data], .err err⟩
  | (.ok _, s1) =>
    let r := resourceNetboxWebhookRead api d s1
    { r with calls := [.ExtrasWebhooksUpdate id data] ++ r.calls }

/-- The function `resourceNetboxWebhookDelete`. -/
def resourceNetboxWebhookDelete {σ : Type} (api : NetBoxAPI σ) (d : WebhookData) (s : σ) :
    Run σ WebhookData :=
  let id := (strconv.ParseInt d.Id).1
  match api.ExtrasWebhooksDelete s id with
  | (.error err, s1) => ⟨d, s1, [.ExtrasWebhooksDelete id], .err err⟩
  | (.ok _, s1) => ⟨d, s1, [.ExtrasWebhooksDelete id], .nil⟩

/-! ## An in-memory inventory service

A small model of the remote side, used to run the functions above on concrete
inputs: records are kept in lists, `Create` hands out `nextID`, a read of an id
that is not stored answers with the status-coded 404 response, an unreachable
service answers every call with a transport error, a VLAN group without name
and a webhook without payload URL are refused, a write to an id that is not
stored is refused, and the webhook operations store the canonical upper-case
form of `http_method`. -/

/-- State of the in-memory inventory service. -/
structure Inventory where
  up : Bool := true
  nextID : Int := 1
  tags : List NestedTag := []
  prefixes : List PrefixModel := []
  vlanGroups : List VLANGroup := []
  webhooks : List Webhook := []
  deriving DecidableEq, Repr

namespace Inventory

/-- The error of a call that never reached the service. -/
def transportError : GoError := .other "*url.Error" "dial tcp: connect: connection refused"

/-- The error of a write the service refuses. -/
def rejected (typeName : String) : GoError := .other typeName "[400] bad request"

/-- Canonical form of an HTTP method name as the service stores it. -/
def canonicalMethod (m : String) : String :=
  if m = "get" then "GET"
  else if m = "post" then "POST"
  else if m = "put" then "PUT"
  else if m = "patch" then "PATCH"
  else if m = "delete" then "DELETE"
  else m

/-- Whether a stored record matches the list filter. -/
def matchesFilter (p : IpamPrefixesListParams) (r : PrefixModel) : Bool :=
  (match p.Cidr with
    | some c => decide (r.Cidr = some c)
    | none => true) &&
  (match p.VlanVid with
    | some v => decide (r.Vlan = some ⟨v⟩)
    | none => true)

/-- The list endpoint: the count of all matches, and at most `Limit` of them. -/
def listPrefixes (inv : Inventory) (p : IpamPrefixesListParams) :
    Except GoError PrefixList × Inventory :=
  if inv.up then
    let ms := inv.prefixes.filter (matchesFilter p)
    let page := match p.Limit with
      | some l => ms.take l.toNat
      | none => ms
    (.ok ⟨some (ms.length : Int), page⟩, inv)
  else (.error transportError, inv)

/-- Tag names resolved against the catalogue, in order; the first unknown name
stops the resolution with a failure report and the references found so far. -/
def resolveTags (inv : Inventory) : List String → List NestedTag × Option String
  | [] => ([], none)
  | n :: ns =>
    match inv.tags.find? (fun t => t.Name = n) with
    | none => ([], some ("Error retrieving tag " ++ n ++ " from netbox"))
    | some t => (t :: (resolveTags inv ns).1, (resolveTags inv ns).2)

def createVlanGroup (inv : Inventory) (data : VLANGroup) : Except GoError VLANGroup × Inventory :=
  if inv.up then
    if data.Name = some "" then (.error (rejected "*ipam.IpamVlanGroupsCreateDefault"), inv)
    else
      let g := { data with ID := inv.nextID }
      (.ok g, { inv with nextID := inv.nextID + 1, vlanGroups := inv.vlanGroups ++ [g] })
  else (.error transportError, inv)

def readVlanGroup (inv : Inventory) (id : Int) : Except GoError VLANGroup × Inventory :=
  if inv.up then
    match inv.vlanGroups.find? (fun g => g.ID = id) with
    | some g => (.ok g, inv)
    | none => (.error (.IpamVlanGroupsReadDefault 404 "Not found."), inv)
  else (.error transportError, inv)

def updateVlanGroup (inv : Inventory) (id : Int) (data : VLANGroup) :
    Except GoError VLANGroup × Inventory :=
  if inv.up then
    match inv.vlanGroups.find? (fun g => g.ID = id) with
    | some _ =>
      if data.Name = some "" then (.error (rejected "*ipam.IpamVlanGroupsUpdateDefault"), inv)
      else
        let g := { data with ID := id }
        (.ok g,
          { inv with vlanGroups := inv.vlanGroups.map (fun x => if x.ID = id then g else x) })
    | none => (.error (rejected "*ipam.IpamVlanGroupsUpdateDefault"), inv)
  else (.error transportError, inv)

def deleteVlanGroup (inv : Inventory) (id : Int) : Except GoError Unit × Inventory :=
  if inv.up then
    match inv.vlanGroups.find? (fun g => g.ID = id) with
    | some _ => (.ok (), { inv with vlanGroups := inv.vlanGroups.filter (fun x => x.ID ≠ id) })
    | none => (.error (rejected "*ipam.IpamVlanGroupsDeleteDefault"), inv)
  else (.error transportError, inv)

def createWebhook (inv : Inventory) (data : Webhook) : Except GoError Webhook × Inventory :=
  if inv.up then
    if data.PayloadURL = some "" then (.error (rejected "*extras.ExtrasWebhooksCreateDefault"), inv)
    else
      let w := { data with ID := inv.nextID, HTTPMethod := canonicalMethod data.HTTPMethod }
      (.ok w, { inv with nextID := inv.nextID + 1, webhooks := inv.webhooks ++ [w] })
  else (.error transportError, inv)

def readWebhook (inv : Inventory) (id : Int) : Except GoError Webhook × Inventory :=
  if inv.up then
    match inv.webhooks.find? (fun w => w.ID = id) with
    | some w => (.ok w, inv)
    | none => (.error (.ExtrasWebhooksReadDefault 404 "Not found."), inv)
  else (.error transportError, inv)

def updateWebhook (inv : Inventory) (id : Int) (data : Webhook) :
    Except GoError Webhook × Inventory :=
  if inv.up then
    match inv.webhooks.find? (fun w => w.ID = id) with
    | some _ =>
      if data.PayloadURL = some "" then
        (.error (rejected "*extras.ExtrasWebhooksUpdateDefault"), inv)
      else
        let w := { data with ID := id, HTTPMethod := canonicalMethod data.HTTPMethod }
        (.ok w, { inv with webhooks := inv.webhooks.map (fun x => if x.ID = id then w else x) })
    | none => (.error (rejected "*extras.ExtrasWebhooksUpdateDefault"), inv)
  else (.error transportError, inv)

def deleteWebhook (inv : Inventory) (id : Int) : Except GoError Unit × Inventory :=
  if inv.up then
    match inv.webhooks.find? (fun w => w.ID = id) with
    | some _ => (.ok (), { inv with webhooks := inv.webhooks.filter (fun x => x.ID ≠ id) })
    | none => (.error (rejected "*extras.ExtrasWebhooksDeleteDefault"), inv)
  else (.error transportError, inv)

/-- The client of the in-memory inventory service. -/
def api : NetBoxAPI Inventory where
  IpamPrefixesList := listPrefixes
  getNestedTagListFromResourceDataSet := fun inv names => (resolveTags inv names, inv)
  IpamVlanGroupsCreate := createVlanGroup
  IpamVlanGroupsRead := readVlanGroup
  IpamVlanGroupsUpdate := updateVlanGroup
  IpamVlanGroupsDelete := deleteVlanGroup
  ExtrasWebhooksCreate := createWebhook
  ExtrasWebhooksRead := readWebhook
  ExtrasWebhooksUpdate := updateWebhook
  ExtrasWebhooksDelete := deleteWebhook

end Inventory

/-! ## Sample inputs -/

namespace Sample

/-- A service holding one tag, two prefixes on VLAN 100 and one on VLAN 200,
VLAN group 11 (no scope), VLAN group 12 (scoped to site 3) and webhook 7; the
next id it hands out is 42. -/
def inventory : Inventory :=
  { nextID := 42
    tags := [⟨"net", 3⟩]
    prefixes := [⟨5, some "10.0.0.0/24", some ⟨100⟩, none⟩,
                 ⟨6, some "10.0.1.0/24", some ⟨100⟩, some ⟨9⟩⟩,
                 ⟨42, some "10.0.2.0/24", some ⟨200⟩, some ⟨9⟩⟩]
    vlanGroups := [{ ID := 11, Name := some "edge", Slug := some "edge", MinVid := 1,
                     MaxVid := 4094 },
                   { ID := 12, Name := some "site", Slug := some "site", MinVid := 1,
                     MaxVid := 4094, ScopeType := "dcim.site", ScopeID := some 3 }]
    webhooks := [{ ID := 7, Name := some "notify", HTTPMethod := "POST",
                   HTTPContentType := "application/json",
                   PayloadURL := some "http://example.com/hook" }] }

/-- The same service, unreachable. -/
def unreachable : Inventory := { inventory with up := false }

/-- The VLAN group of the first example scenario. -/
def coreGroup : VlanGroupData :=
  { name := "core", slug := "core", min_vid := 1, max_vid := 4094, tags := ["net"] }

/-- A VLAN group the service refuses to create (empty name). -/
def namelessGroup : VlanGroupData := { slug := "x", tags := ["net"] }

/-- A VLAN group with a tag the catalogue does not know, a scope type and no scope id. -/
def ghostGroup : VlanGroupData :=
  { name := "lab", slug := "lab", min_vid := 1, max_vid := 4094, tags := ["net", "ghost"],
    scope_type := "dcim.site" }

/-- A webhook whose method is written in lower case. -/
def hook : WebhookData :=
  { name := "notify", http_method := "put", http_content_type := "application/json",
    payload_url := "http://example.com/hook", content_types := ["dcim.site"] }

/-- A webhook the service refuses to create (empty payload URL). -/
def emptyHook : WebhookData := { name := "broken", http_method := "post" }

end Sample

/-! ## strconv: parsing a formatted identifier -/

namespace strconv

theorem parseUintStep_digitChar (n d : Nat) (hd : d < 10) (hn : n * 10 + d ≤ maxUint64) :
    parseUintStep n (digitChar d) = .ok (n * 10 + d) := by
  have hc : (digitChar d).toNat = 48 + d := by
    unfold digitChar
    interval_cases d <;> rfl
  have h1 : ¬ (n ≥ maxUint64 / 10 + 1) := by
    unfold maxUint64 at *
    omega
  have h2 : ¬ (n * 10 + (48 + d - 48) > maxUint64) := by
    unfold maxUint64 at *
    omega
  unfold parseUintStep
  rw [hc]
  rw [if_pos (by omega), if_neg h1]
  simp only [h2, if_false]
  congr 1
  omega

theorem parseUintLoop_formatBitsLoop (fuel : Nat) :
    ∀ (u : Nat) (acc : List Char), u ≤ fuel → u ≤ maxUint64 →
      parseUintLoop (formatBitsLoop fuel u acc) 0 = parseUintLoop acc u := by
  induction fuel with
  | zero =>
    intro u acc hu _
    have h0 : u = 0 := by omega
    subst h0
    have hs := parseUintStep_digitChar 0 0 (by decide) (by decide)
    simp only [formatBitsLoop, parseUintLoop]
    rw [hs]
  | succ fuel ih =>
    intro u acc hu hmax
    unfold formatBitsLoop
    by_cases h10 : u ≥ 10
    · rw [if_pos h10, ih (u / 10) _ (by omega) (by omega)]
      have hs := parseUintStep_digitChar (u / 10) (u % 10) (Nat.mod_lt _ (by decide))
        (by omega)
      simp only [parseUintLoop]
      rw [hs]
      have : u / 10 * 10 + u % 10 = u := by omega
      simp only [this]
    · rw [if_neg h10]
      have hs := parseUintStep_digitChar 0 u (by omega) (by omega)
      simp only [parseUintLoop]
      rw [hs]
      simp

theorem parseUintLoop_formatBits (u : Nat) (hu : u ≤ maxUint64) :
    parseUintLoop (formatBits u) 0 = .ok u := by
  unfold formatBits
  rw [parseUintLoop_formatBitsLoop u u [] (le_refl _) hu]
  rfl

theorem formatBitsLoop_head (fuel : Nat) :
    ∀ (u : Nat) (acc : List Char),
      ∃ d rest, d < 10 ∧ formatBitsLoop fuel u acc = digitChar d :: rest := by
  induction fuel with
  | zero =>
    intro u acc
    exact ⟨u % 10, acc, Nat.mod_lt _ (by decide), rfl⟩
  | succ fuel ih =>
    intro u acc
    unfold formatBitsLoop
    by_cases h10 : u ≥ 10
    · rw [if_pos h10]
      exact ih _ _
    · rw [if_neg h10]
      exact ⟨u, acc, by omega, rfl⟩

theorem digitChar_ne_sign (d : Nat) (hd : d < 10) : digitChar d ≠ '+' ∧ digitChar d ≠ '-' := by
  unfold digitChar
  interval_cases d <;> decide

theorem ParseUint_formatBits (u : Nat) (hu : u ≤ maxUint64) :
    ParseUint (formatBits u) = (u, none) := by
  obtain ⟨d, rest, _, hf⟩ := formatBitsLoop_head u u []
  have hne : formatBits u ≠ [] := by
    unfold formatBits
    rw [hf]
    exact List.cons_ne_nil _ _
  unfold ParseUint
  rw [if_neg hne, parseUintLoop_formatBits u hu]

/-- Parsing what `FormatInt` wrote gives the value back, without error, for
every `int64`. -/
theorem ParseInt_FormatInt (n : Int) (hlo : -(2 ^ 63) ≤ n) (hhi : n < 2 ^ 63) :
    ParseInt (FormatInt n) = (n, none) := by
  by_cases hneg : n < 0
  · have hdata : (FormatInt n).data = '-' :: formatBits n.natAbs := by
      unfold FormatInt
      rw [if_pos hneg]
    have hu : n.natAbs ≤ maxUint64 := by
      unfold maxUint64
      omega
    unfold ParseInt
    rw [hdata]
    have hPU := ParseUint_formatBits _ hu
    have h1 : ¬ ((9223372036854775808 : Nat) < n.natAbs) := by omega
    simp [hPU, h1, abs_of_neg hneg]
  · have hdata : (FormatInt n).data = formatBits n.toNat := by
      unfold FormatInt
      rw [if_neg hneg]
    obtain ⟨d, rest, hd, hf⟩ := formatBitsLoop_head n.toNat n.toNat []
    have hu : n.toNat ≤ maxUint64 := by
      unfold maxUint64
      omega
    have hsign := digitChar_ne_sign d hd
    have hPU := ParseUint_formatBits _ hu
    unfold ParseInt
    rw [hdata]
    unfold formatBits at hPU ⊢
    rw [hf] at hPU ⊢
    have h1 : n.toNat < (9223372036854775808 : Nat) := by omega
    have h2 : ((n.toNat : Nat) : Int) = n := by omega
    simp [hsign.1, hsign.2, hPU, h1, h2]

end strconv

/-! ## Prefix lookup -/

/-- C1: when the list call succeeds and reports a match count other than 1
(a count of matches, so 0 or at least 2), `dataSourceNetboxPrefixRead` returns
an error and leaves the local state as it was: "No result" for a count of 0,
"More than one result. Specify a more narrow filter" for a count of 2 or more.
The outcome is fixed by the count: any response with the same count and any
other result list gives the same local state and the same error. -/
theorem dataSourceNetboxPrefixRead_count_ne_one {σ : Type} (api : NetBoxAPI σ)
    (d : PrefixData) (s s1 : σ) (res : PrefixList) (count : Int)
    (hcall : api.IpamPrefixesList s (dataSourceNetboxPrefixParams d) = (.ok res, s1))
    (hcount : res.Count = some count) (hnonneg : 0 ≤ count) (hne : count ≠ 1) :
    (dataSourceNetboxPrefixRead api d s).d = d ∧
    (∃ e, (dataSourceNetboxPrefixRead api d s).ret = .err e) ∧
    (count = 0 →
      (dataSourceNetboxPrefixRead api d s).ret = .err (.errorString "No result")) ∧
    (2 ≤ count →
      (dataSourceNetboxPrefixRead api d s).ret =
        .err (.errorString "More than one result. Specify a more narrow filter")) ∧
    (∀ (api2 : NetBoxAPI σ) (s2 : σ) (results : List PrefixModel),
      api2.IpamPrefixesList s (dataSourceNetboxPrefixParams d) =
          (.ok ⟨some count, results⟩, s2) →
        (dataSourceNetboxPrefixRead api2 d s).d = (dataSourceNetboxPrefixRead api d s).d ∧
        (dataSourceNetboxPrefixRead api2 d s).ret = (dataSourceNetboxPrefixRead api d s).ret) := by
  have hcases : count = 0 ∨ 2 ≤ count := by omega
  rcases hcases with h0 | h2
  · subst h0
    refine ⟨?_, ?_, ?_, ?_, ?_⟩
    · simp [dataSourceNetboxPrefixRead, hcall, hcount]
    · exact ⟨.errorString "No result", by simp [dataSourceNetboxPrefixRead, hcall, hcount]⟩
    · intro _
      simp [dataSourceNetboxPrefixRead, hcall, hcount]
    · intro h
      omega
    · intro api2 s2 results h2
      simp [dataSourceNetboxPrefixRead, hcall, hcount, h2]
  · have hgt : count > 1 := by omega
    refine ⟨?_, ?_, ?_, ?_, ?_⟩
    · simp [dataSourceNetboxPrefixRead, hcall, hcount, hgt]
    · exact ⟨.errorString "More than one result. Specify a more narrow filter",
        by simp [dataSourceNetboxPrefixRead, hcall, hcount, hgt]⟩
    · intro h
      omega
    · intro _
      simp [dataSourceNetboxPrefixRead, hcall, hcount, hgt]
    · intro api2 s2 results h2
      simp [dataSourceNetboxPrefixRead, hcall, hcount, h2, hgt]

/-- C1, on the in-memory service: two stored prefixes match the filter
`vlan_vid = 100`, the count is 2 and the lookup is refused. -/
theorem dataSourceNetboxPrefixRead_count_ne_one_witness :
    (dataSourceNetboxPrefixRead Inventory.api { vlan_vid := 100 }
        { prefixes := [⟨5, some "10.0.0.0/24", some ⟨100⟩, none⟩,
                       ⟨6, some "10.0.1.0/24", some ⟨100⟩, some ⟨9⟩⟩] }).d
      = { vlan_vid := 100 } ∧
    (dataSourceNetboxPrefixRead Inventory.api { vlan_vid := 100 }
        { prefixes := [⟨5, some "10.0.0.0/24", some ⟨100⟩, none⟩,
                       ⟨6, some "10.0.1.0/24", some ⟨100⟩, some ⟨9⟩⟩] }).ret
      = .err (.errorString "More than one result. Specify a more narrow filter") :=
  have h := dataSourceNetboxPrefixRead_count_ne_one Inventory.api { vlan_vid := 100 }
    { prefixes := [⟨5, some "10.0.0.0/24", some ⟨100⟩, none⟩,
                   ⟨6, some "10.0.1.0/24", some ⟨100⟩, some ⟨9⟩⟩] } _ _ 2
    rfl rfl (by decide) (by decide)
  ⟨h.1, h.2.2.2.1 (by decide)⟩

/-- C2: when the list call succeeds, reports exactly one match and the result
list starts with the record `result`, `dataSourceNetboxPrefixRead` returns
`nil`, the identifier is `strconv.FormatInt(result.ID, 10)`, the attribute
`id` is `result.ID`, and `vrf_id` is the id of the record's VRF when it has one
(and keeps its value otherwise).  That identifier is the one the VLAN-group
and webhook `Create` store for a created record with the same id: each
`Create` run ends as the `Read` run started from the local state carrying the
lookup's identifier. -/
theorem dataSourceNetboxPrefixRead_single {σ τ : Type} (api : NetBoxAPI σ)
    (d : PrefixData) (s s1 : σ) (res : PrefixList) (result : PrefixModel)
    (rest : List PrefixModel)
    (hcall : api.IpamPrefixesList s (dataSourceNetboxPrefixParams d) = (.ok res, s1))
    (hcount : res.Count = some 1) (hres : res.Results = result :: rest)
    (api2 : NetBoxAPI τ) (dv : VlanGroupData) (dw : WebhookData) (t t1 t2 t3 : τ)
    (tags : List NestedTag) (report : Option String) (group : VLANGroup) (webhook : Webhook)
    (htags : api2.getNestedTagListFromResourceDataSet t dv.tags = ((tags, report), t1))
    (hgroup : api2.IpamVlanGroupsCreate t1
      { resourceNetboxVlanGroupData dv with Tags := tags } = (.ok group, t2))
    (hwebhook : api2.ExtrasWebhooksCreate t (resourceNetboxWebhookData dw) = (.ok webhook, t3))
    (hgid : group.ID = result.ID) (hwid : webhook.ID = result.ID) :
    (dataSourceNetboxPrefixRead api d s).ret = .nil ∧
    (dataSourceNetboxPrefixRead api d s).d.Id = strconv.FormatInt result.ID ∧
    (dataSourceNetboxPrefixRead api d s).d.id = result.ID ∧
    (∀ vrf, result.Vrf = some vrf → (dataSourceNetboxPrefixRead api d s).d.vrf_id = vrf.ID) ∧
    (result.Vrf = none → (dataSourceNetboxPrefixRead api d s).d.vrf_id = d.vrf_id) ∧
    (dataSourceNetboxPrefixRead api d s).d.cidr = d.cidr ∧
    (dataSourceNetboxPrefixRead api d s).d.vlan_vid = d.vlan_vid ∧
    (resourceNetboxVlanGroupCreate api2 dv t).d =
      (resourceNetboxVlanGroupRead api2
        { dv with Id := (dataSourceNetboxPrefixRead api d s).d.Id } t2).d ∧
    (resourceNetboxWebhookCreate api2 dw t).d =
      (resourceNetboxWebhookRead api2
        { dw with Id := (dataSourceNetboxPrefixRead api d s).d.Id } t3).d := by
  have hid : (dataSourceNetboxPrefixRead api d s).d.Id = strconv.FormatInt result.ID := by
    cases hv : result.Vrf <;> simp [dataSourceNetboxPrefixRead, hcall, hcount, hres, hv]
  refine ⟨?_, hid, ?_, ?_, ?_, ?_, ?_, ?_, ?_⟩
  · simp [dataSourceNetboxPrefixRead, hcall, hcount, hres]
  · cases hv : result.Vrf <;> simp [dataSourceNetboxPrefixRead, hcall, hcount, hres, hv]
  · intro vrf hv
    simp [dataSourceNetboxPrefixRead, hcall, hcount, hres, hv]
  · intro hv
    simp [dataSourceNetboxPrefixRead, hcall, hcount, hres, hv]
  · cases hv : result.Vrf <;> simp [dataSourceNetboxPrefixRead, hcall, hcount, hres, hv]
  · cases hv : result.Vrf <;> simp [dataSourceNetboxPrefixRead, hcall, hcount, hres, hv]
  · rw [hid]
    simp [resourceNetboxVlanGroupCreate, htags, hgroup, hgid]
  · rw [hid]
    simp [resourceNetboxWebhookCreate, hwebhook, hwid]

/-- C2, on the in-memory service: one stored prefix is on VLAN 200 and has id
42; the lookup ends with the identifier "42", `id = 42` and `vrf_id = 9`, and
the VLAN group and the webhook the service creates under id 42 carry the same
identifier. -/
theorem dataSourceNetboxPrefixRead_single_witness :
    (dataSourceNetboxPrefixRead Inventory.api { vlan_vid := 200 } Sample.inventory).ret =
      .nil ∧
    (dataSourceNetboxPrefixRead Inventory.api { vlan_vid := 200 } Sample.inventory).d =
      { Id := "42", id := 42, vlan_vid := 200, vrf_id := 9 } ∧
    (resourceNetboxVlanGroupCreate Inventory.api Sample.coreGroup Sample.inventory).d.Id =
      (dataSourceNetboxPrefixRead Inventory.api { vlan_vid := 200 } Sample.inventory).d.Id ∧
    (resourceNetboxWebhookCreate Inventory.api Sample.hook Sample.inventory).d.Id =
      (dataSourceNetboxPrefixRead Inventory.api { vlan_vid := 200 } Sample.inventory).d.Id :=
  have h := dataSourceNetboxPrefixRead_single Inventory.api { vlan_vid := 200 }
    Sample.inventory Sample.inventory
    ⟨some 1, [⟨42, some "10.0.2.0/24", some ⟨200⟩, some ⟨9⟩⟩]⟩
    ⟨42, some "10.0.2.0/24", some ⟨200⟩, some ⟨9⟩⟩ [] rfl rfl rfl
    Inventory.api Sample.coreGroup Sample.hook Sample.inventory Sample.inventory
    (Inventory.createVlanGroup Sample.inventory
      { resourceNetboxVlanGroupData Sample.coreGroup with Tags := [⟨"net", 3⟩] }).2
    (Inventory.createWebhook Sample.inventory (resourceNetboxWebhookData Sample.hook)).2
    [⟨"net", 3⟩] none
    { resourceNetboxVlanGroupData Sample.coreGroup with Tags := [⟨"net", 3⟩], ID := 42 }
    { resourceNetboxWebhookData Sample.hook with ID := 42, HTTPMethod := "PUT" }
    rfl rfl rfl rfl rfl
  ⟨h.1, rfl, congrArg VlanGroupData.Id h.2.2.2.2.2.2.2.1 |>.trans rfl,
    congrArg WebhookData.Id h.2.2.2.2.2.2.2.2 |>.trans rfl⟩

/-! ## Read: what every run has in common -/

theorem resourceNetboxVlanGroupRead_calls {σ : Type} (api : NetBoxAPI σ) (d : VlanGroupData)
    (s : σ) :
    (resourceNetboxVlanGroupRead api d s).calls =
      [.IpamVlanGroupsRead (strconv.ParseInt d.Id).1] := by
  simp only [resourceNetboxVlanGroupRead]
  split
  · split
    · split <;> rfl
    · rfl
  · rfl

theorem resourceNetboxWebhookRead_calls {σ : Type} (api : NetBoxAPI σ) (d : WebhookData)
    (s : σ) :
    (resourceNetboxWebhookRead api d s).calls =
      [.ExtrasWebhooksRead (strconv.ParseInt d.Id).1] := by
  simp only [resourceNetboxWebhookRead]
  split
  · split
    · split <;> rfl
    · rfl
  · rfl

/-- A status-coded read failure other than 404 is handed back as it is, and the
local state is not touched. -/
theorem resourceNetboxVlanGroupRead_status_error {σ : Type} (api : NetBoxAPI σ)
    (d : VlanGroupData) (s s1 : σ) (code : Int) (payload : String) (hcode : code ≠ 404)
    (h : api.IpamVlanGroupsRead s (strconv.ParseInt d.Id).1 =
      (.error (.IpamVlanGroupsReadDefault code payload), s1)) :
    (resourceNetboxVlanGroupRead api d s).ret = .err (.IpamVlanGroupsReadDefault code payload) ∧
    (resourceNetboxVlanGroupRead api d s).d = d := by
  simp [resourceNetboxVlanGroupRead, h, hcode]

/-- A status-coded read failure other than 404 is handed back as it is, and the
local state is not touched. -/
theorem resourceNetboxWebhookRead_status_error {σ : Type} (api : NetBoxAPI σ)
    (d : WebhookData) (s s1 : σ) (code : Int) (payload : String) (hcode : code ≠ 404)
    (h : api.ExtrasWebhooksRead s (strconv.ParseInt d.Id).1 =
      (.error (.ExtrasWebhooksReadDefault code payload), s1)) :
    (resourceNetboxWebhookRead api d s).ret = .err (.ExtrasWebhooksReadDefault code payload) ∧
    (resourceNetboxWebhookRead api d s).d = d := by
  simp [resourceNetboxWebhookRead, h, hcode]

/-! ## Read and the 404 response -/

/-- C3: when the read-by-id call fails with the status-coded 404 response,
`resourceNetboxVlanGroupRead` and `resourceNetboxWebhookRead` return `nil` and
set the identifier to the empty string, leaving the attributes as they were. -/
theorem Read_404_clears_identifier {σ : Type} (api : NetBoxAPI σ) (dv : VlanGroupData)
    (dw : WebhookData) (s sv sw : σ) (pv pw : String)
    (hv : api.IpamVlanGroupsRead s (strconv.ParseInt dv.Id).1 =
      (.error (.IpamVlanGroupsReadDefault 404 pv), sv))
    (hw : api.ExtrasWebhooksRead s (strconv.ParseInt dw.Id).1 =
      (.error (.ExtrasWebhooksReadDefault 404 pw), sw)) :
    (resourceNetboxVlanGroupRead api dv s).ret = .nil ∧
    (resourceNetboxVlanGroupRead api dv s).d.Id = "" ∧
    (resourceNetboxVlanGroupRead api dv s).d = { dv with Id := "" } ∧
    (resourceNetboxWebhookRead api dw s).ret = .nil ∧
    (resourceNetboxWebhookRead api dw s).d.Id = "" ∧
    (resourceNetboxWebhookRead api dw s).d = { dw with Id := "" } := by
  simp [resourceNetboxVlanGroupRead, resourceNetboxWebhookRead, hv, hw]

/-- C3, on the in-memory service: VLAN group 11 is deleted by `Delete`, webhook
8 never existed; the Reads that follow end without error and without
identifier. -/
theorem Read_404_clears_identifier_witness :
    (resourceNetboxVlanGroupRead Inventory.api { Sample.coreGroup with Id := "11" }
      (resourceNetboxVlanGroupDelete Inventory.api { Sample.coreGroup with Id := "11" }
        Sample.inventory).remote).ret = .nil ∧
    (resourceNetboxVlanGroupRead Inventory.api { Sample.coreGroup with Id := "11" }
      (resourceNetboxVlanGroupDelete Inventory.api { Sample.coreGroup with Id := "11" }
        Sample.inventory).remote).d.Id = "" ∧
    (resourceNetboxWebhookRead Inventory.api { Sample.hook with Id := "8" }
      (resourceNetboxVlanGroupDelete Inventory.api { Sample.coreGroup with Id := "11" }
        Sample.inventory).remote).ret = .nil ∧
    (resourceNetboxWebhookRead Inventory.api { Sample.hook with Id := "8" }
      (resourceNetboxVlanGroupDelete Inventory.api { Sample.coreGroup with Id := "11" }
        Sample.inventory).remote).d.Id = "" :=
  have h := Read_404_clears_identifier Inventory.api { Sample.coreGroup with Id := "11" }
    { Sample.hook with Id := "8" }
    (resourceNetboxVlanGroupDelete Inventory.api { Sample.coreGroup with Id := "11" }
      Sample.inventory).remote
    (resourceNetboxVlanGroupDelete Inventory.api { Sample.coreGroup with Id := "11" }
      Sample.inventory).remote
    (resourceNetboxVlanGroupDelete Inventory.api { Sample.coreGroup with Id := "11" }
      Sample.inventory).remote
    "Not found." "Not found." rfl rfl
  ⟨h.1, h.2.1, h.2.2.2.1, h.2.2.2.2.1⟩

/-- C4, at the failing input: the service is unreachable, the read-by-id call
fails with a transport error that is no status-coded response, and both Reads
end in a panic of the unchecked type assertion instead of returning the
error. -/
theorem Read_transport_error_panics :
    (resourceNetboxVlanGroupRead Inventory.api { Sample.coreGroup with Id := "11" }
      Sample.unreachable).ret =
      .panicked "interface conversion: error is not *ipam.IpamVlanGroupsReadDefault" ∧
    (resourceNetboxWebhookRead Inventory.api { Sample.hook with Id := "7" }
      Sample.unreachable).ret =
      .panicked "interface conversion: error is not *extras.ExtrasWebhooksReadDefault" ∧
    Inventory.api.IpamVlanGroupsRead Sample.unreachable 11 =
      (.error Inventory.transportError, Sample.unreachable) ∧
    Inventory.api.ExtrasWebhooksRead Sample.unreachable 7 =
      (.error Inventory.transportError, Sample.unreachable) := by
  refine ⟨rfl, rfl, rfl, rfl⟩

/-! ## Tag resolution -/

/-- C5, as stated, fails: the catalogue does not know the tag "ghost", the
resolution reports a failure, and yet `resourceNetboxVlanGroupCreate` and
`resourceNetboxVlanGroupUpdate` return `nil` after submitting a request that
carries the partial tag list. -/
theorem tag_failure_is_discarded :
    (Inventory.api.getNestedTagListFromResourceDataSet Sample.inventory
      Sample.ghostGroup.tags).1 =
      ([⟨"net", 3⟩], some "Error retrieving tag ghost from netbox") ∧
    (resourceNetboxVlanGroupCreate Inventory.api Sample.ghostGroup Sample.inventory).ret = .nil ∧
    (resourceNetboxVlanGroupCreate Inventory.api Sample.ghostGroup Sample.inventory).calls =
      [.TagLookup ["net", "ghost"],
       .IpamVlanGroupsCreate
         { resourceNetboxVlanGroupData Sample.ghostGroup with Tags := [⟨"net", 3⟩] },
       .IpamVlanGroupsRead 42] ∧
    (resourceNetboxVlanGroupUpdate Inventory.api { Sample.ghostGroup with Id := "11" }
      Sample.inventory).ret = .nil ∧
    (resourceNetboxVlanGroupUpdate Inventory.api { Sample.ghostGroup with Id := "11" }
      Sample.inventory).calls =
      [.TagLookup ["net", "ghost"],
       .IpamVlanGroupsUpdate 11
         { resourceNetboxVlanGroupData Sample.ghostGroup with Tags := [⟨"net", 3⟩] },
       .IpamVlanGroupsRead 11] := by
  refine ⟨rfl, rfl, rfl, rfl, rfl⟩

/-- C5, amended: whatever `getNestedTagListFromResourceDataSet` reports,
`resourceNetboxVlanGroupCreate` and `resourceNetboxVlanGroupUpdate` discard the
report and submit the create / update request with the tag list it returned.
When that request succeeds the operation ends as the Read that follows: the
Read request is sent next (for the identifier Create has just stored, for the
unchanged identifier in Update), and the local state, the remote state and
the result of the operation are those of that Read.  When the request fails,
the operation returns its error, leaves the local state as it was and sends
nothing more. -/
theorem tag_report_ignored {σ : Type} (api : NetBoxAPI σ) (d : VlanGroupData) (s s1 : σ)
    (tags : List NestedTag) (report : Option String)
    (htags : api.getNestedTagListFromResourceDataSet s d.tags = ((tags, report), s1)) :
    Call.IpamVlanGroupsCreate { resourceNetboxVlanGroupData d with Tags := tags } ∈
      (resourceNetboxVlanGroupCreate api d s).calls ∧
    Call.IpamVlanGroupsUpdate (strconv.ParseInt d.Id).1
        { resourceNetboxVlanGroupData d with Tags := tags } ∈
      (resourceNetboxVlanGroupUpdate api d s).calls ∧
    (∀ group s2,
      api.IpamVlanGroupsCreate s1 { resourceNetboxVlanGroupData d with Tags := tags } =
          (.ok group, s2) →
        (resourceNetboxVlanGroupCreate api d s).ret =
          (resourceNetboxVlanGroupRead api { d with Id := strconv.FormatInt group.ID } s2).ret ∧
        (resourceNetboxVlanGroupCreate api d s).d =
          (resourceNetboxVlanGroupRead api { d with Id := strconv.FormatInt group.ID } s2).d ∧
        (resourceNetboxVlanGroupCreate api d s).remote =
          (resourceNetboxVlanGroupRead api
            { d with Id := strconv.FormatInt group.ID } s2).remote ∧
        (resourceNetboxVlanGroupCreate api d s).calls =
          [.TagLookup d.tags,
           .IpamVlanGroupsCreate { resourceNetboxVlanGroupData d with Tags := tags },
           .IpamVlanGroupsRead (strconv.ParseInt (strconv.FormatInt group.ID)).1]) ∧
    (∀ group s2,
      api.IpamVlanGroupsUpdate s1 (strconv.ParseInt d.Id).1
          { resourceNetboxVlanGroupData d with Tags := tags } = (.ok group, s2) →
        (resourceNetboxVlanGroupUpdate api d s).ret =
          (resourceNetboxVlanGroupRead api d s2).ret ∧
        (resourceNetboxVlanGroupUpdate api d s).d =
          (resourceNetboxVlanGroupRead api d s2).d ∧
        (resourceNetboxVlanGroupUpdate api d s).remote =
          (resourceNetboxVlanGroupRead api d s2).remote ∧
        (resourceNetboxVlanGroupUpdate api d s).calls =
          [.TagLookup d.tags,
           .IpamVlanGroupsUpdate (strconv.ParseInt d.Id).1
             { resourceNetboxVlanGroupData d with Tags := tags },
           .IpamVlanGroupsRead (strconv.ParseInt d.Id).1]) ∧
    (∀ err s2,
      api.IpamVlanGroupsCreate s1 { resourceNetboxVlanGroupData d with Tags := tags } =
          (.error err, s2) →
        (resourceNetboxVlanGroupCreate api d s).ret = .err err ∧
        (resourceNetboxVlanGroupCreate api d s).d = d ∧
        (resourceNetboxVlanGroupCreate api d s).calls =
          [.TagLookup d.tags,
           .IpamVlanGroupsCreate { resourceNetboxVlanGroupData d with Tags := tags }]) ∧
    (∀ err s2,
      api.IpamVlanGroupsUpdate s1 (strconv.ParseInt d.Id).1
          { resourceNetboxVlanGroupData d with Tags := tags } = (.error err, s2) →
        (resourceNetboxVlanGroupUpdate api d s).ret = .err err ∧
        (resourceNetboxVlanGroupUpdate api d s).d = d ∧
        (resourceNetboxVlanGroupUpdate api d s).calls =
          [.TagLookup d.tags,
           .IpamVlanGroupsUpdate (strconv.ParseInt d.Id).1
             { resourceNetboxVlanGroupData d with Tags := tags }]) := by
  refine ⟨?_, ?_, ?_, ?_, ?_, ?_⟩
  · simp only [resourceNetboxVlanGroupCreate, htags]
    split <;> simp
  · simp only [resourceNetboxVlanGroupUpdate, htags]
    split <;> simp
  · intro group s2 h
    refine ⟨?_, ?_, ?_, ?_⟩
    · simp only [resourceNetboxVlanGroupCreate, htags, h]
    · simp only [resourceNetboxVlanGroupCreate, htags, h]
    · simp only [resourceNetboxVlanGroupCreate, htags, h]
    · have hc : (resourceNetboxVlanGroupCreate api d s).calls =
          [.TagLookup d.tags,
           .IpamVlanGroupsCreate { resourceNetboxVlanGroupData d with Tags := tags }] ++
          (resourceNetboxVlanGroupRead api
            { d with Id := strconv.FormatInt group.ID } s2).calls := by
        simp only [resourceNetboxVlanGroupCreate, htags, h]
      rw [hc, resourceNetboxVlanGroupRead_calls]
      rfl
  · intro group s2 h
    refine ⟨?_, ?_, ?_, ?_⟩
    · simp only [resourceNetboxVlanGroupUpdate, htags, h]
    · simp only [resourceNetboxVlanGroupUpdate, htags, h]
    · simp only [resourceNetboxVlanGroupUpdate, htags, h]
    · have hc : (resourceNetboxVlanGroupUpdate api d s).calls =
          [.TagLookup d.tags,
           .IpamVlanGroupsUpdate (strconv.ParseInt d.Id).1
             { resourceNetboxVlanGroupData d with Tags := tags }] ++
          (resourceNetboxVlanGroupRead api d s2).calls := by
        simp only [resourceNetboxVlanGroupUpdate, htags, h]
      rw [hc, resourceNetboxVlanGroupRead_calls]
      rfl
  · intro err s2 h
    simp only [resourceNetboxVlanGroupCreate, htags, h, and_self]
  · intro err s2 h
    simp only [resourceNetboxVlanGroupUpdate, htags, h, and_self]

/-- C5, amended, on the in-memory service: the resolution of "ghost" fails, the
create request with the partial tag list is in the call log, and Create and
Update end as the Read that follows, with `nil`, the identifier of the record
and the partial tag list read back. -/
theorem tag_report_ignored_witness :
    Call.IpamVlanGroupsCreate
        { resourceNetboxVlanGroupData Sample.ghostGroup with Tags := [⟨"net", 3⟩] } ∈
      (resourceNetboxVlanGroupCreate Inventory.api Sample.ghostGroup Sample.inventory).calls ∧
    (resourceNetboxVlanGroupCreate Inventory.api Sample.ghostGroup Sample.inventory).ret =
      .nil ∧
    (resourceNetboxVlanGroupCreate Inventory.api Sample.ghostGroup Sample.inventory).d =
      { Sample.ghostGroup with Id := "42", tags := ["net"] } ∧
    (resourceNetboxVlanGroupUpdate Inventory.api { Sample.ghostGroup with Id := "11" }
      Sample.inventory).d =
      { Sample.ghostGroup with Id := "11", tags := ["net"] } ∧
    (resourceNetboxVlanGroupUpdate Inventory.api { Sample.ghostGroup with Id := "11" }
      Sample.inventory).calls =
      [.TagLookup ["net", "ghost"],
       .IpamVlanGroupsUpdate 11
         { resourceNetboxVlanGroupData Sample.ghostGroup with Tags := [⟨"net", 3⟩] },
       .IpamVlanGroupsRead 11] :=
  have hc := tag_report_ignored Inventory.api Sample.ghostGroup Sample.inventory
    Sample.inventory [⟨"net", 3⟩] (some "Error retrieving tag ghost from netbox") rfl
  have hu := tag_report_ignored Inventory.api { Sample.ghostGroup with Id := "11" }
    Sample.inventory Sample.inventory [⟨"net", 3⟩]
    (some "Error retrieving tag ghost from netbox") rfl
  have hc3 := hc.2.2.1
    { resourceNetboxVlanGroupData Sample.ghostGroup with Tags := [⟨"net", 3⟩], ID := 42 }
    (Inventory.createVlanGroup Sample.inventory
      { resourceNetboxVlanGroupData Sample.ghostGroup with Tags := [⟨"net", 3⟩] }).2 rfl
  have hu4 := hu.2.2.2.1
    { resourceNetboxVlanGroupData Sample.ghostGroup with Tags := [⟨"net", 3⟩], ID := 11 }
    (Inventory.updateVlanGroup Sample.inventory 11
      { resourceNetboxVlanGroupData Sample.ghostGroup with Tags := [⟨"net", 3⟩] }).2 rfl
  ⟨hc.1, hc3.1.trans (by rfl), hc3.2.1.trans (by rfl), hu4.2.1.trans (by rfl), hu4.2.2.2⟩

/-! ## Scope reference -/

/-- C6, as stated, fails twice: a local state with `scope_type` and no
`scope_id` gives a payload with a ScopeType and no ScopeID, and a Read of a
remote record without scope, from a local state that has `scope_type` and
`scope_id = 5`, ends with an empty `scope_type` beside `scope_id = 5`. -/
theorem scope_pair_not_atomic :
    (resourceNetboxVlanGroupData Sample.ghostGroup).ScopeType = "dcim.site" ∧
    (resourceNetboxVlanGroupData Sample.ghostGroup).ScopeID = none ∧
    (resourceNetboxVlanGroupRead Inventory.api
      { Sample.coreGroup with Id := "11", scope_type := "dcim.site", scope_id := 5 }
      Sample.inventory).ret = .nil ∧
    (resourceNetboxVlanGroupRead Inventory.api
      { Sample.coreGroup with Id := "11", scope_type := "dcim.site", scope_id := 5 }
      Sample.inventory).d.scope_type = "" ∧
    (resourceNetboxVlanGroupRead Inventory.api
      { Sample.coreGroup with Id := "11", scope_type := "dcim.site", scope_id := 5 }
      Sample.inventory).d.scope_id = 5 := by
  refine ⟨rfl, rfl, rfl, rfl, rfl⟩

/-- C6, amended: the payload built by Create / Update carries the local
`scope_type` as its ScopeType and has a ScopeID exactly when the local
`scope_id` is not zero, each on its own, so the payload's pair is atomic
whenever the local pair is; and after a successful Read of a remote record
that has a ScopeID, the local `scope_type` and `scope_id` are the record's
ScopeType and ScopeID. -/
theorem scope_pair_follows_source {σ : Type} (api : NetBoxAPI σ) (d : VlanGroupData)
    (s s1 : σ) (group : VLANGroup) (scopeID : Int)
    (hread : api.IpamVlanGroupsRead s (strconv.ParseInt d.Id).1 = (.ok group, s1))
    (hscope : group.ScopeID = some scopeID) :
    (resourceNetboxVlanGroupData d).ScopeType = d.scope_type ∧
    (resourceNetboxVlanGroupData d).ScopeID = (if d.scope_id ≠ 0 then some d.scope_id else none) ∧
    ((d.scope_type ≠ "" ↔ d.scope_id ≠ 0) →
      ((resourceNetboxVlanGroupData d).ScopeType ≠ "" ↔
        (resourceNetboxVlanGroupData d).ScopeID ≠ none)) ∧
    (resourceNetboxVlanGroupRead api d s).ret = .nil ∧
    (resourceNetboxVlanGroupRead api d s).d.scope_type = group.ScopeType ∧
    (resourceNetboxVlanGroupRead api d s).d.scope_id = scopeID := by
  have h1 : (resourceNetboxVlanGroupData d).ScopeType = d.scope_type := by
    unfold resourceNetboxVlanGroupData
    by_cases ht : d.scope_type = "" <;> by_cases hi : d.scope_id = 0 <;> simp [ht, hi]
  have h2 : (resourceNetboxVlanGroupData d).ScopeID =
      (if d.scope_id ≠ 0 then some d.scope_id else none) := by
    unfold resourceNetboxVlanGroupData
    by_cases ht : d.scope_type = "" <;> by_cases hi : d.scope_id = 0 <;>
      simp [ht, hi, int64ToPtr]
  refine ⟨h1, h2, ?_, ?_, ?_, ?_⟩
  · intro hiff
    rw [h1, h2]
    by_cases hi : d.scope_id = 0
    · simp [hi, hiff]
    · simp [hi, hiff]
  · simp [resourceNetboxVlanGroupRead, hread]
  · simp [resourceNetboxVlanGroupRead, hread, resourceNetboxVlanGroupReadSet, hscope]
  · simp [resourceNetboxVlanGroupRead, hread, resourceNetboxVlanGroupReadSet, hscope]

/-- C6, amended, on the in-memory service: VLAN group 12 is scoped to site 3;
a Read from a local state with `scope_id = 5` ends with the record's pair. -/
theorem scope_pair_follows_source_witness :
    (resourceNetboxVlanGroupRead Inventory.api
      { Sample.coreGroup with Id := "12", scope_id := 5 } Sample.inventory).d.scope_type =
      "dcim.site" ∧
    (resourceNetboxVlanGroupRead Inventory.api
      { Sample.coreGroup with Id := "12", scope_id := 5 } Sample.inventory).d.scope_id = 3 :=
  have h := scope_pair_follows_source Inventory.api
    { Sample.coreGroup with Id := "12", scope_id := 5 } Sample.inventory Sample.inventory
    { ID := 12, Name := some "site", Slug := some "site", MinVid := 1, MaxVid := 4094,
      ScopeType := "dcim.site", ScopeID := some 3 } 3 rfl rfl
  ⟨h.2.2.2.2.1, h.2.2.2.2.2⟩

/-! ## Webhook: Read populates every attribute -/

/-- The `d.Set` calls of `resourceNetboxWebhookRead`, attribute by attribute. -/
theorem resourceNetboxWebhookReadSet_eq (d : WebhookData) (w : Webhook) :
    resourceNetboxWebhookReadSet d w =
      { Id := d.Id
        additional_headers := w.AdditionalHeaders
        body_template := w.BodyTemplate
        ca_file_path := w.CaFilePath.getD ""
        conditions := w.Conditions.getD ""
        content_types := w.ContentTypes
        enabled := w.Enabled
        name := w.Name.getD ""
        http_method := w.HTTPMethod
        http_content_type := w.HTTPContentType
        payload_url := w.PayloadURL.getD ""
        secret := w.Secret
        ssl_verification := w.SslVerification
        type_create := w.TypeCreate.getD false
        type_delete := w.TypeDelete.getD false
        type_update := w.TypeUpdate.getD false } := by
  obtain ⟨_, _, _, ca, co, _, _, _, _, na, pu, _, _, tc, td, tu⟩ := w
  cases ca <;> cases co <;> cases na <;> cases pu <;> cases tc <;> cases td <;> cases tu <;> rfl

/-- C7: after a successful `resourceNetboxWebhookRead` the identifier is kept
and each of the fifteen attributes comes from the record: the optional string
fields (`ca_file_path`, `conditions`, `name`, `payload_url`) are the remote
value when present and "" when absent, the optional boolean fields
(`type_create`, `type_update`, `type_delete`) are the remote value when present
and `false` when absent, the other fields are copied.  Hence a Read of the same
record from any other prior local state gives the same attribute values. -/
theorem resourceNetboxWebhookRead_populates {σ τ : Type} (api : NetBoxAPI σ)
    (api2 : NetBoxAPI τ) (d d2 : WebhookData) (s s1 : σ) (t t1 : τ) (w : Webhook)
    (hread : api.ExtrasWebhooksRead s (strconv.ParseInt d.Id).1 = (.ok w, s1))
    (hread2 : api2.ExtrasWebhooksRead t (strconv.ParseInt d2.Id).1 = (.ok w, t1)) :
    (resourceNetboxWebhookRead api d s).ret = .nil ∧
    (resourceNetboxWebhookRead api d s).d =
      { Id := d.Id
        additional_headers := w.AdditionalHeaders
        body_template := w.BodyTemplate
        ca_file_path := w.CaFilePath.getD ""
        conditions := w.Conditions.getD ""
        content_types := w.ContentTypes
        enabled := w.Enabled
        name := w.Name.getD ""
        http_method := w.HTTPMethod
        http_content_type := w.HTTPContentType
        payload_url := w.PayloadURL.getD ""
        secret := w.Secret
        ssl_verification := w.SslVerification
        type_create := w.TypeCreate.getD false
        type_delete := w.TypeDelete.getD false
        type_update := w.TypeUpdate.getD false } ∧
    { (resourceNetboxWebhookRead api d s).d with Id := "" } =
      { (resourceNetboxWebhookRead api2 d2 t).d with Id := "" } := by
  have e1 : (resourceNetboxWebhookRead api d s).d = resourceNetboxWebhookReadSet d w := by
    simp only [resourceNetboxWebhookRead, hread]
  have e2 : (resourceNetboxWebhookRead api2 d2 t).d = resourceNetboxWebhookReadSet d2 w := by
    simp only [resourceNetboxWebhookRead, hread2]
  refine ⟨?_, ?_, ?_⟩
  · simp only [resourceNetboxWebhookRead, hread]
  · rw [e1, resourceNetboxWebhookReadSet_eq]
  · rw [e1, e2, resourceNetboxWebhookReadSet_eq, resourceNetboxWebhookReadSet_eq]

/-- C7, on the in-memory service: webhook 7 has no `ca_file_path`, no
`conditions` and no `type_*` flags; two Reads from different local states
agree on every attribute. -/
theorem resourceNetboxWebhookRead_populates_witness :
    { (resourceNetboxWebhookRead Inventory.api { Sample.hook with Id := "7" }
        Sample.inventory).d with Id := "" } =
      { (resourceNetboxWebhookRead Inventory.api
          { Id := "7", ca_file_path := "/etc/ca.pem", type_create := true }
          Sample.inventory).d with Id := "" } :=
  (resourceNetboxWebhookRead_populates Inventory.api Inventory.api
    { Sample.hook with Id := "7" }
    { Id := "7", ca_file_path := "/etc/ca.pem", type_create := true }
    Sample.inventory Sample.inventory Sample.inventory Sample.inventory
    { ID := 7, Name := some "notify", HTTPMethod := "POST",
      HTTPContentType := "application/json", PayloadURL := some "http://example.com/hook" }
    rfl rfl).2.2

/-! ## Create: the identifier and the Read that follows -/

/-- C8: when the create call succeeds with a record whose id `n` is a 64-bit
value, `resourceNetboxVlanGroupCreate` and `resourceNetboxWebhookCreate` store
`strconv.FormatInt(n, 10)` as the identifier (parsing it gives `n` back without
error), the Read that follows is the last request and asks for exactly `n`, the
run ends as that Read does from the local state carrying the stored identifier,
and when the Read succeeds `Create` returns `nil` with the identifier still the
decimal string of `n`. -/
theorem Create_stores_decimal_identifier {σ : Type} (api : NetBoxAPI σ)
    (dv : VlanGroupData) (dw : WebhookData) (s s1 s2 s3 : σ) (tags : List NestedTag)
    (report : Option String) (group : VLANGroup) (webhook : Webhook)
    (htags : api.getNestedTagListFromResourceDataSet s dv.tags = ((tags, report), s1))
    (hgroup : api.IpamVlanGroupsCreate s1
      { resourceNetboxVlanGroupData dv with Tags := tags } = (.ok group, s2))
    (hwebhook : api.ExtrasWebhooksCreate s (resourceNetboxWebhookData dw) = (.ok webhook, s3))
    (hglo : -(2 ^ 63) ≤ group.ID) (hghi : group.ID < 2 ^ 63)
    (hwlo : -(2 ^ 63) ≤ webhook.ID) (hwhi : webhook.ID < 2 ^ 63) :
    strconv.ParseInt (strconv.FormatInt group.ID) = (group.ID, none) ∧
    (resourceNetboxVlanGroupCreate api dv s).calls =
      [.TagLookup dv.tags,
       .IpamVlanGroupsCreate { resourceNetboxVlanGroupData dv with Tags := tags },
       .IpamVlanGroupsRead group.ID] ∧
    (resourceNetboxVlanGroupCreate api dv s).d =
      (resourceNetboxVlanGroupRead api { dv with Id := strconv.FormatInt group.ID } s2).d ∧
    (resourceNetboxVlanGroupCreate api dv s).ret =
      (resourceNetboxVlanGroupRead api { dv with Id := strconv.FormatInt group.ID } s2).ret ∧
    (∀ g s4, api.IpamVlanGroupsRead s2 group.ID = (.ok g, s4) →
      (resourceNetboxVlanGroupCreate api dv s).ret = .nil ∧
      (resourceNetboxVlanGroupCreate api dv s).d.Id = strconv.FormatInt group.ID) ∧
    strconv.ParseInt (strconv.FormatInt webhook.ID) = (webhook.ID, none) ∧
    (resourceNetboxWebhookCreate api dw s).calls =
      [.ExtrasWebhooksCreate (resourceNetboxWebhookData dw),
       .ExtrasWebhooksRead webhook.ID] ∧
    (resourceNetboxWebhookCreate api dw s).d =
      (resourceNetboxWebhookRead api { dw with Id := strconv.FormatInt webhook.ID } s3).d ∧
    (resourceNetboxWebhookCreate api dw s).ret =
      (resourceNetboxWebhookRead api { dw with Id := strconv.FormatInt webhook.ID } s3).ret ∧
    (∀ w s4, api.ExtrasWebhooksRead s3 webhook.ID = (.ok w, s4) →
      (resourceNetboxWebhookCreate api dw s).ret = .nil ∧
      (resourceNetboxWebhookCreate api dw s).d.Id = strconv.FormatInt webhook.ID) := by
  have pg := strconv.ParseInt_FormatInt group.ID hglo hghi
  have pw := strconv.ParseInt_FormatInt webhook.ID hwlo hwhi
  have cg : (resourceNetboxVlanGroupCreate api dv s).calls =
      [.TagLookup dv.tags,
       .IpamVlanGroupsCreate { resourceNetboxVlanGroupData dv with Tags := tags }] ++
      (resourceNetboxVlanGroupRead api { dv with Id := strconv.FormatInt group.ID } s2).calls := by
    simp only [resourceNetboxVlanGroupCreate, htags, hgroup]
  have cw : (resourceNetboxWebhookCreate api dw s).calls =
      [.ExtrasWebhooksCreate (resourceNetboxWebhookData dw)] ++
      (resourceNetboxWebhookRead api { dw with Id := strconv.FormatInt webhook.ID } s3).calls := by
    simp only [resourceNetboxWebhookCreate, hwebhook]
  have dg : (resourceNetboxVlanGroupCreate api dv s).d =
      (resourceNetboxVlanGroupRead api { dv with Id := strconv.FormatInt group.ID } s2).d := by
    simp only [resourceNetboxVlanGroupCreate, htags, hgroup]
  have rg : (resourceNetboxVlanGroupCreate api dv s).ret =
      (resourceNetboxVlanGroupRead api { dv with Id := strconv.FormatInt group.ID } s2).ret := by
    simp only [resourceNetboxVlanGroupCreate, htags, hgroup]
  have dw' : (resourceNetboxWebhookCreate api dw s).d =
      (resourceNetboxWebhookRead api { dw with Id := strconv.FormatInt webhook.ID } s3).d := by
    simp only [resourceNetboxWebhookCreate, hwebhook]
  have rw' : (resourceNetboxWebhookCreate api dw s).ret =
      (resourceNetboxWebhookRead api { dw with Id := strconv.FormatInt webhook.ID } s3).ret := by
    simp only [resourceNetboxWebhookCreate, hwebhook]
  refine ⟨pg, ?_, dg, rg, ?_, pw, ?_, dw', rw', ?_⟩
  · rw [cg, resourceNetboxVlanGroupRead_calls]
    simp only [pg, List.cons_append, List.nil_append]
  · intro g s4 hread
    rw [rg, dg]
    simp [resourceNetboxVlanGroupRead, pg, hread, resourceNetboxVlanGroupReadSet]
    cases g.ScopeID <;> rfl
  · rw [cw, resourceNetboxWebhookRead_calls]
    simp only [pw, List.cons_append, List.nil_append]
  · intro w s4 hread
    rw [rw', dw']
    simp only [resourceNetboxWebhookRead, pw, hread, resourceNetboxWebhookReadSet_eq,
      and_self]

/-- C8, on the in-memory service: the service hands out id 42 to the VLAN group
of the first example scenario and to a webhook; both Creates end with the
identifier "42" after a Read of id 42. -/
theorem Create_stores_decimal_identifier_witness :
    (resourceNetboxVlanGroupCreate Inventory.api Sample.coreGroup Sample.inventory).calls =
      [.TagLookup ["net"],
       .IpamVlanGroupsCreate
         { resourceNetboxVlanGroupData Sample.coreGroup with Tags := [⟨"net", 3⟩] },
       .IpamVlanGroupsRead 42] ∧
    (resourceNetboxVlanGroupCreate Inventory.api Sample.coreGroup Sample.inventory).ret = .nil ∧
    (resourceNetboxVlanGroupCreate Inventory.api Sample.coreGroup Sample.inventory).d.Id =
      "42" ∧
    (resourceNetboxWebhookCreate Inventory.api Sample.hook Sample.inventory).ret = .nil ∧
    (resourceNetboxWebhookCreate Inventory.api Sample.hook Sample.inventory).d.Id = "42" :=
  have h := Create_stores_decimal_identifier Inventory.api Sample.coreGroup Sample.hook
    Sample.inventory Sample.inventory
    (Inventory.createVlanGroup Sample.inventory
      { resourceNetboxVlanGroupData Sample.coreGroup with Tags := [⟨"net", 3⟩] }).2
    (Inventory.createWebhook Sample.inventory (resourceNetboxWebhookData Sample.hook)).2
    [⟨"net", 3⟩] none
    { resourceNetboxVlanGroupData Sample.coreGroup with Tags := [⟨"net", 3⟩], ID := 42 }
    { resourceNetboxWebhookData Sample.hook with ID := 42, HTTPMethod := "PUT" }
    rfl rfl rfl (by decide) (by decide) (by decide) (by decide)
  ⟨h.2.1,
   (h.2.2.2.2.1
     { resourceNetboxVlanGroupData Sample.coreGroup with Tags := [⟨"net", 3⟩], ID := 42 }
     _ rfl).1,
   (h.2.2.2.2.1
     { resourceNetboxVlanGroupData Sample.coreGroup with Tags := [⟨"net", 3⟩], ID := 42 }
     _ rfl).2,
   (h.2.2.2.2.2.2.2.2.2
     { resourceNetboxWebhookData Sample.hook with ID := 42, HTTPMethod := "PUT" } _ rfl).1,
   (h.2.2.2.2.2.2.2.2.2
     { resourceNetboxWebhookData Sample.hook with ID := 42, HTTPMethod := "PUT" } _ rfl).2⟩

/-! ## Update: the Read that follows -/

/-- C9: when the update call succeeds, `resourceNetboxWebhookUpdate` sends the
update and then the read-by-id request, and when that Read succeeds it returns
`nil` with every attribute taken from the record the Read returned; so
`http_method` is the value the service holds, whatever was submitted. -/
theorem resourceNetboxWebhookUpdate_reads_back {σ : Type} (api : NetBoxAPI σ)
    (d : WebhookData) (s s1 : σ) (updated : Webhook)
    (hupdate : api.ExtrasWebhooksUpdate s (strconv.ParseInt d.Id).1
      (resourceNetboxWebhookData d) = (.ok updated, s1)) :
    (resourceNetboxWebhookUpdate api d s).calls =
      [.ExtrasWebhooksUpdate (strconv.ParseInt d.Id).1 (resourceNetboxWebhookData d),
       .ExtrasWebhooksRead (strconv.ParseInt d.Id).1] ∧
    (∀ w s2, api.ExtrasWebhooksRead s1 (strconv.ParseInt d.Id).1 = (.ok w, s2) →
      (resourceNetboxWebhookUpdate api d s).ret = .nil ∧
      (resourceNetboxWebhookUpdate api d s).d.http_method = w.HTTPMethod ∧
      (resourceNetboxWebhookUpdate api d s).d =
        { Id := d.Id
          additional_headers := w.AdditionalHeaders
          body_template := w.BodyTemplate
          ca_file_path := w.CaFilePath.getD ""
          conditions := w.Conditions.getD ""
          content_types := w.ContentTypes
          enabled := w.Enabled
          name := w.Name.getD ""
          http_method := w.HTTPMethod
          http_content_type := w.HTTPContentType
          payload_url := w.PayloadURL.getD ""
          secret := w.Secret
          ssl_verification := w.SslVerification
          type_create := w.TypeCreate.getD false
          type_delete := w.TypeDelete.getD false
          type_update := w.TypeUpdate.getD false }) := by
  have hc : (resourceNetboxWebhookUpdate api d s).calls =
      [.ExtrasWebhooksUpdate (strconv.ParseInt d.Id).1 (resourceNetboxWebhookData d)] ++
      (resourceNetboxWebhookRead api d s1).calls := by
    simp only [resourceNetboxWebhookUpdate, hupdate]
  have hd : (resourceNetboxWebhookUpdate api d s).d = (resourceNetboxWebhookRead api d s1).d := by
    simp only [resourceNetboxWebhookUpdate, hupdate]
  have hr : (resourceNetboxWebhookUpdate api d s).ret =
      (resourceNetboxWebhookRead api d s1).ret := by
    simp only [resourceNetboxWebhookUpdate, hupdate]
  refine ⟨?_, ?_⟩
  · rw [hc, resourceNetboxWebhookRead_calls]
    rfl
  · intro w s2 hread
    rw [hr, hd]
    simp only [resourceNetboxWebhookRead, hread, resourceNetboxWebhookReadSet_eq, and_self]

/-- C9, on the in-memory service: webhook 7 is updated with the method "put",
the service stores "PUT", and the local `http_method` after the Update is
"PUT". -/
theorem resourceNetboxWebhookUpdate_reads_back_witness :
    (resourceNetboxWebhookUpdate Inventory.api { Sample.hook with Id := "7" }
      Sample.inventory).ret = .nil ∧
    (resourceNetboxWebhookUpdate Inventory.api { Sample.hook with Id := "7" }
      Sample.inventory).d.http_method = "PUT" :=
  have h := (resourceNetboxWebhookUpdate_reads_back Inventory.api
    { Sample.hook with Id := "7" } Sample.inventory
    (Inventory.updateWebhook Sample.inventory 7
      (resourceNetboxWebhookData { Sample.hook with Id := "7" })).2
    { resourceNetboxWebhookData Sample.hook with ID := 7, HTTPMethod := "PUT" } rfl).2
    { resourceNetboxWebhookData Sample.hook with ID := 7, HTTPMethod := "PUT" } _ rfl
  ⟨h.1, h.2.1⟩

/-! ## Failed writes -/

/-- C10: each of the six write operations on its own.  When the remote write
call of `resourceNetboxVlanGroupCreate`, `resourceNetboxVlanGroupUpdate`,
`resourceNetboxVlanGroupDelete`, `resourceNetboxWebhookCreate`,
`resourceNetboxWebhookUpdate` or `resourceNetboxWebhookDelete` fails, that
operation returns the error of the call, leaves the local state (identifier
and attributes) exactly as it was, and sends nothing after the failed
request: no Read follows.  In particular the identifier is still empty after
a failed Create that started without one. -/
theorem failed_write_keeps_local_state {σ : Type} (api : NetBoxAPI σ)
    (dv : VlanGroupData) (dw : WebhookData) (s : σ) :
    (∀ (tags : List NestedTag) (report : Option String) (s1 s2 : σ) (err : GoError),
      api.getNestedTagListFromResourceDataSet s dv.tags = ((tags, report), s1) →
      api.IpamVlanGroupsCreate s1
          { resourceNetboxVlanGroupData dv with Tags := tags } = (.error err, s2) →
        (resourceNetboxVlanGroupCreate api dv s).ret = .err err ∧
        (resourceNetboxVlanGroupCreate api dv s).d = dv ∧
        (dv.Id = "" → (resourceNetboxVlanGroupCreate api dv s).d.Id = "") ∧
        (resourceNetboxVlanGroupCreate api dv s).calls =
          [.TagLookup dv.tags,
           .IpamVlanGroupsCreate { resourceNetboxVlanGroupData dv with Tags := tags }]) ∧
    (∀ (tags : List NestedTag) (report : Option String) (s1 s2 : σ) (err : GoError),
      api.getNestedTagListFromResourceDataSet s dv.tags = ((tags, report), s1) →
      api.IpamVlanGroupsUpdate s1 (strconv.ParseInt dv.Id).1
          { resourceNetboxVlanGroupData dv with Tags := tags } = (.error err, s2) →
        (resourceNetboxVlanGroupUpdate api dv s).ret = .err err ∧
        (resourceNetboxVlanGroupUpdate api dv s).d = dv ∧
        (resourceNetboxVlanGroupUpdate api dv s).calls =
          [.TagLookup dv.tags,
           .IpamVlanGroupsUpdate (strconv.ParseInt dv.Id).1
             { resourceNetboxVlanGroupData dv with Tags := tags }]) ∧
    (∀ (s2 : σ) (err : GoError),
      api.IpamVlanGroupsDelete s (strconv.ParseInt dv.Id).1 = (.error err, s2) →
        (resourceNetboxVlanGroupDelete api dv s).ret = .err err ∧
        (resourceNetboxVlanGroupDelete api dv s).d = dv ∧
        (resourceNetboxVlanGroupDelete api dv s).calls =
          [.IpamVlanGroupsDelete (strconv.ParseInt dv.Id).1]) ∧
    (∀ (s2 : σ) (err : GoError),
      api.ExtrasWebhooksCreate s (resourceNetboxWebhookData dw) = (.error err, s2) →
        (resourceNetboxWebhookCreate api dw s).ret = .err err ∧
        (resourceNetboxWebhookCreate api dw s).d = dw ∧
        (dw.Id = "" → (resourceNetboxWebhookCreate api dw s).d.Id = "") ∧
        (resourceNetboxWebhookCreate api dw s).calls =
          [.ExtrasWebhooksCreate (resourceNetboxWebhookData dw)]) ∧
    (∀ (s2 : σ) (err : GoError),
      api.ExtrasWebhooksUpdate s (strconv.ParseInt dw.Id).1
          (resourceNetboxWebhookData dw) = (.error err, s2) →
        (resourceNetboxWebhookUpdate api dw s).ret = .err err ∧
        (resourceNetboxWebhookUpdate api dw s).d = dw ∧
        (resourceNetboxWebhookUpdate api dw s).calls =
          [.ExtrasWebhooksUpdate (strconv.ParseInt dw.Id).1 (resourceNetboxWebhookData dw)]) ∧
    (∀ (s2 : σ) (err : GoError),
      api.ExtrasWebhooksDelete s (strconv.ParseInt dw.Id).1 = (.error err, s2) →
        (resourceNetboxWebhookDelete api dw s).ret = .err err ∧
        (resourceNetboxWebhookDelete api dw s).d = dw ∧
        (resourceNetboxWebhookDelete api dw s).calls =
          [.ExtrasWebhooksDelete (strconv.ParseInt dw.Id).1]) := by
  refine ⟨?_, ?_, ?_, ?_, ?_, ?_⟩
  · intro tags report s1 s2 err htags h
    refine ⟨?_, ?_, ?_, ?_⟩
    · simp only [resourceNetboxVlanGroupCreate, htags, h]
    · simp only [resourceNetboxVlanGroupCreate, htags, h]
    · intro hid
      simp only [resourceNetboxVlanGroupCreate, htags, h, hid]
    · simp only [resourceNetboxVlanGroupCreate, htags, h]
  · intro tags report s1 s2 err htags h
    simp only [resourceNetboxVlanGroupUpdate, htags, h, and_self]
  · intro s2 err h
    simp only [resourceNetboxVlanGroupDelete, h, and_self]
  · intro s2 err h
    refine ⟨?_, ?_, ?_, ?_⟩
    · simp only [resourceNetboxWebhookCreate, h]
    · simp only [resourceNetboxWebhookCreate, h]
    · intro hid
      simp only [resourceNetboxWebhookCreate, h, hid]
    · simp only [resourceNetboxWebhookCreate, h]
  · intro s2 err h
    simp only [resourceNetboxWebhookUpdate, h, and_self]
  · intro s2 err h
    simp only [resourceNetboxWebhookDelete, h, and_self]

/-- C10, on the in-memory service, one failing write at a time: a VLAN group
without name and a webhook without payload URL are refused on Create (the
identifier stays empty); the Update of the stored VLAN group 11 to an empty
name and of the stored webhook 7 to an empty payload URL are refused, while
their Deletes would succeed; the Delete of VLAN group 11 and of webhook 7
fails when the service is unreachable.  Every time the error is returned and
the local state is the one the operation started from. -/
theorem failed_write_keeps_local_state_witness :
    ((resourceNetboxVlanGroupCreate Inventory.api Sample.namelessGroup Sample.inventory).ret =
        .err (Inventory.rejected "*ipam.IpamVlanGroupsCreateDefault") ∧
      (resourceNetboxVlanGroupCreate Inventory.api Sample.namelessGroup Sample.inventory).d =
        Sample.namelessGroup ∧
      (resourceNetboxVlanGroupCreate Inventory.api Sample.namelessGroup
        Sample.inventory).d.Id = "") ∧
    ((resourceNetboxVlanGroupUpdate Inventory.api { Sample.namelessGroup with Id := "11" }
        Sample.inventory).ret =
        .err (Inventory.rejected "*ipam.IpamVlanGroupsUpdateDefault") ∧
      (resourceNetboxVlanGroupUpdate Inventory.api { Sample.namelessGroup with Id := "11" }
        Sample.inventory).d = { Sample.namelessGroup with Id := "11" } ∧
      (resourceNetboxVlanGroupDelete Inventory.api { Sample.namelessGroup with Id := "11" }
        Sample.inventory).ret = .nil) ∧
    ((resourceNetboxVlanGroupDelete Inventory.api { Sample.coreGroup with Id := "11" }
        Sample.unreachable).ret = .err Inventory.transportError ∧
      (resourceNetboxVlanGroupDelete Inventory.api { Sample.coreGroup with Id := "11" }
        Sample.unreachable).d = { Sample.coreGroup with Id := "11" }) ∧
    ((resourceNetboxWebhookCreate Inventory.api Sample.emptyHook Sample.inventory).ret =
        .err (Inventory.rejected "*extras.ExtrasWebhooksCreateDefault") ∧
      (resourceNetboxWebhookCreate Inventory.api Sample.emptyHook Sample.inventory).d =
        Sample.emptyHook ∧
      (resourceNetboxWebhookCreate Inventory.api Sample.emptyHook Sample.inventory).d.Id =
        "") ∧
    ((resourceNetboxWebhookUpdate Inventory.api { Sample.emptyHook with Id := "7" }
        Sample.inventory).ret =
        .err (Inventory.rejected "*extras.ExtrasWebhooksUpdateDefault") ∧
      (resourceNetboxWebhookUpdate Inventory.api { Sample.emptyHook with Id := "7" }
        Sample.inventory).d = { Sample.emptyHook with Id := "7" } ∧
      (resourceNetboxWebhookDelete Inventory.api { Sample.emptyHook with Id := "7" }
        Sample.inventory).ret = .nil) ∧
    ((resourceNetboxWebhookDelete Inventory.api { Sample.hook with Id := "7" }
        Sample.unreachable).ret = .err Inventory.transportError ∧
      (resourceNetboxWebhookDelete Inventory.api { Sample.hook with Id := "7" }
        Sample.unreachable).d = { Sample.hook with Id := "7" }) :=
  have c := (failed_write_keeps_local_state Inventory.api Sample.namelessGroup
    Sample.emptyHook Sample.inventory).1 [⟨"net", 3⟩] none Sample.inventory Sample.inventory
    (Inventory.rejected "*ipam.IpamVlanGroupsCreateDefault") rfl rfl
  have u := (failed_write_keeps_local_state Inventory.api
    { Sample.namelessGroup with Id := "11" } Sample.emptyHook Sample.inventory).2.1
    [⟨"net", 3⟩] none Sample.inventory Sample.inventory
    (Inventory.rejected "*ipam.IpamVlanGroupsUpdateDefault") rfl rfl
  have d := (failed_write_keeps_local_state Inventory.api
    { Sample.coreGroup with Id := "11" } Sample.hook Sample.unreachable).2.2.1
    Sample.unreachable Inventory.transportError rfl
  have wc := (failed_write_keeps_local_state Inventory.api Sample.namelessGroup
    Sample.emptyHook Sample.inventory).2.2.2.1 Sample.inventory
    (Inventory.rejected "*extras.ExtrasWebhooksCreateDefault") rfl
  have wu := (failed_write_keeps_local_state Inventory.api Sample.namelessGroup
    { Sample.emptyHook with Id := "7" } Sample.inventory).2.2.2.2.1 Sample.inventory
    (Inventory.rejected "*extras.ExtrasWebhooksUpdateDefault") rfl
  have wd := (failed_write_keeps_local_state Inventory.api Sample.coreGroup
    { Sample.hook with Id := "7" } Sample.unreachable).2.2.2.2.2
    Sample.unreachable Inventory.transportError rfl
  ⟨⟨c.1, c.2.1, c.2.2.1 rfl⟩, ⟨u.1, u.2.1, rfl⟩, ⟨d.1, d.2.1⟩,
   ⟨wc.1, wc.2.1, wc.2.2.1 rfl⟩, ⟨wu.1, wu.2.1, rfl⟩, ⟨wd.1, wd.2.1⟩⟩

end Netbox
